import Mathlib

/-
Shallow embedding of the ticket-notification service core
(internal/service/notification.go, internal/queue/sqs.go, internal/db/dynamo.go).

Effects are made explicit:
- the wall clock is a counter advanced by a list of nondecreasing deltas,
  so successive calls of time.Now are monotone;
- uuid.New is a fresh-value generator driven by a counter; the rendered
  string follows the 8-4-4-4-12 hex layout of the Go uuid package;
- the SES email transport and each SQS queue operation consume a head
  element of a boolean oracle list (true = the network call succeeds),
  mirroring an opaque transport that may fail on any call;
- every SQS client records the messages it successfully enqueued, the
  receive/delete attempts it made, and the receipt handles it deleted.
-/

set_option autoImplicit false
set_option linter.unusedVariables false

namespace TicketNotif

/-- Go interface values carried in a map from string to interface, as
distinguished by the type switch in DynamoClient.UpdateNotification:
string, time.Time, pointer to time.Time, and a default case rendered
with Sprintf. -/
inductive GoVal where
  | str : String → GoVal
  | time : Nat → GoVal
  | timePtr : Option Nat → GoVal
  | other : String → GoVal
deriving DecidableEq

/-- Rendering of a Go time with the RFC3339 layout, abstracted to an
injective rendering of the model instant. -/
def formatRFC3339 (t : Nat) : String := "rfc3339-" ++ toString t

/-- Rendering of a Go time with the layout 02/01/2006 15:04, abstracted to an
injective rendering of the model instant. -/
def formatShortDate (t : Nat) : String := "shortdate-" ++ toString t

/-- Hex digits of the low 128 bits of the generator value, as the Go uuid
package renders the 16 raw bytes. -/
def uuidHex (n : Nat) : List Char := Nat.toDigits 16 (n % 2 ^ 128)

/-- Left-pad the hex digits to the 32 characters of a rendered UUID. -/
def uuidPad (l : List Char) : List Char := List.replicate (32 - l.length) '0' ++ l

/-- String form of a model UUID: 32 hex characters in the 8-4-4-4-12 grouping,
as produced by the String method of the Go uuid package. -/
def uuidToString (n : Nat) : String :=
  let h := uuidPad (uuidHex n)
  String.mk (h.take 8 ++ '-' :: (h.drop 8).take 4 ++ '-' :: (h.drop 12).take 4
    ++ '-' :: (h.drop 16).take 4 ++ '-' :: h.drop 20)

/-- model.Notification (internal/model/notification.go). Times are model
instants; the ID field holds the raw generator value whose string form is
uuidToString. -/
structure Notification where
  id : Nat
  type : String
  status : String
  priority : String
  recipient : String
  subject : String
  content : String
  templateID : String
  data : List (String × GoVal)
  sentAt : Option Nat
  readAt : Option Nat
  createdAt : Nat
  updatedAt : Nat
deriving DecidableEq

/-- model.NotificationStatusPending -/
def NotificationStatusPending : String := "pending"
/-- model.NotificationStatusSent -/
def NotificationStatusSent : String := "sent"
/-- model.NotificationStatusFailed : String -/
def NotificationStatusFailed : String := "failed"
/-- model.NotificationPriorityLow -/
def NotificationPriorityLow : String := "low"
/-- model.NotificationPriorityNormal -/
def NotificationPriorityNormal : String := "normal"
/-- model.NotificationPriorityHigh -/
def NotificationPriorityHigh : String := "high"
/-- model.NotificationPriorityUrgent -/
def NotificationPriorityUrgent : String := "urgent"

/-- model.CreateNotificationRequest -/
structure CreateNotificationRequest where
  type : String
  priority : String
  recipient : String
  subject : String
  content : String
  templateID : String
  data : List (String × GoVal)
deriving DecidableEq

/-- model.BulkNotificationRequest -/
structure BulkNotificationRequest where
  notifications : List CreateNotificationRequest
  templateID : String
  priority : String
deriving DecidableEq

/-- model.EventNotification -/
structure EventNotification where
  eventID : String
  eventName : String
  eventDate : Nat
  location : String
  recipient : String
  type : String
  priority : String
deriving DecidableEq

/-- queue.EventNotificationMessage -/
structure EventNotificationMessage where
  eventID : String
  eventName : String
  eventDate : String
  location : String
  recipient : String
  type : String
  priority : String
  templateID : String
deriving DecidableEq

/-- queue.ReservationNotificationMessage -/
structure ReservationNotificationMessage where
  reservationID : String
  eventID : String
  eventName : String
  eventDate : String
  location : String
  recipient : String
  type : String
  priority : String
  templateID : String
deriving DecidableEq

/-- queue.ReminderMessage -/
structure ReminderMessage where
  eventID : String
  eventName : String
  eventDate : String
  location : String
  recipient : String
  reminderType : String
  templateID : String
deriving DecidableEq

/-- An SQS message as returned by ReceiveMessage: the fields the processor
dereferences (MessageId, Body, ReceiptHandle). -/
structure SqsMessage where
  messageId : String
  body : String
  receiptHandle : String
deriving DecidableEq

/-- State of one queue.SQSClient: a send-result oracle, the typed messages
successfully enqueued, counts of send and receive attempts, the messages
currently available to a receive, a receive-result oracle, a delete-result
oracle, and the receipt handles of attempted and completed deletions. -/
structure SQSClientState (α : Type) where
  sendResults : List Bool
  sent : List α
  sendAttempts : Nat
  pending : List SqsMessage
  receiveOk : Bool
  receiveAttempts : Nat
  deleteResults : List Bool
  deleteAttempted : List String
  deleted : List String
deriving DecidableEq

/-- ses.SendEmailInput restricted to the fields the service fills: source,
the single destination address, the subject text, and the plain-text body. -/
structure EmailInput where
  source : String
  toAddresses : List String
  subject : String
  bodyText : String
deriving DecidableEq

/-- State threaded through service.NotificationService operations: the clock,
the UUID generator, the SES transport oracle with its attempted calls, and
the three SQS clients (events, reservations, reminders). -/
structure ServiceState where
  clock : Nat
  deltas : List Nat
  uuidCtr : Nat
  emailResults : List Bool
  emailAttempts : Nat
  emailCalls : List EmailInput
  eventQueue : SQSClientState EventNotificationMessage
  reservationQueue : SQSClientState ReservationNotificationMessage
  reminderQueue : SQSClientState ReminderMessage
deriving DecidableEq

/-- time.Now: returns the current instant and advances the clock by the next
delta (zero once the delta list is exhausted), so the clock never decreases. -/
def timeNow (s : ServiceState) : Nat × ServiceState :=
  (s.clock, { s with clock := s.clock + s.deltas.headD 0, deltas := s.deltas.tail })

/-- uuid.New: returns a fresh generator value. -/
def uuidNew (s : ServiceState) : Nat × ServiceState :=
  (s.uuidCtr, { s with uuidCtr := s.uuidCtr + 1 })

/-- ses.Client.SendEmail: records the attempted call, consumes the head of the
email oracle, and returns an error message when the oracle says the call
fails. -/
def sesSendEmail (s : ServiceState) (input : EmailInput) : Option String × ServiceState :=
  let ok := s.emailResults.headD true
  ((if ok then none else some "ses transport failure"),
   { s with emailResults := s.emailResults.tail, emailAttempts := s.emailAttempts + 1,
            emailCalls := s.emailCalls ++ [input] })

/-- sendEmailNotification (notification.go lines 309-339): builds the SES input
from recipient, subject and content, submits it, and wraps transport errors. -/
def sendEmailNotification (s : ServiceState) (n : Notification) : Option String × ServiceState :=
  let emailInput : EmailInput :=
    { source := "notifications@ticket-system.com",
      toAddresses := [n.recipient],
      subject := n.subject,
      bodyText := n.content }
  match sesSendEmail s emailInput with
  | (some e, s1) => (some ("error sending email via SES: " ++ e), s1)
  | (none, s1) => (none, s1)

/-- SendNotification (notification.go lines 40-72): allocate the Notification
with status pending, default an empty priority to normal, attempt the email,
and record the outcome on the returned object; the error result is always nil. -/
def SendNotification (s : ServiceState) (req : CreateNotificationRequest) :
    (Notification × Option String) × ServiceState :=
  let (idv, s1) := uuidNew s
  let (t1, s2) := timeNow s1
  let (t2, s3) := timeNow s2
  let n : Notification :=
    { id := idv, type := req.type, status := NotificationStatusPending,
      priority := req.priority, recipient := req.recipient, subject := req.subject,
      content := req.content, templateID := req.templateID, data := req.data,
      sentAt := none, readAt := none, createdAt := t1, updatedAt := t2 }
  let n := if n.priority = "" then { n with priority := NotificationPriorityNormal } else n
  match sendEmailNotification s3 n with
  | (some _, s4) => (({ n with status := NotificationStatusFailed }, none), s4)
  | (none, s4) =>
      let (t3, s5) := timeNow s4
      (({ n with status := NotificationStatusSent, sentAt := some t3 }, none), s5)

/-- Per-item overrides of SendBulkNotifications (notification.go lines 80-88):
a non-empty batch-level priority replaces the item priority, and a non-empty
batch-level template replaces the item template. -/
def overrideItem (batchPriority batchTemplateID : String)
    (item : CreateNotificationRequest) : CreateNotificationRequest :=
  let item := if batchPriority ≠ "" then { item with priority := batchPriority } else item
  if batchTemplateID ≠ "" then { item with templateID := batchTemplateID } else item

/-- Loop body of SendBulkNotifications (notification.go lines 79-96): apply the
batch-level priority and template overrides when non-empty, send, and collect
the produced Notification (or, on error, the error message). -/
def sendBulkLoop (batchPriority batchTemplateID : String)
    (items : List CreateNotificationRequest) (acc : List Notification)
    (errs : List String) (st : ServiceState) :
    (List Notification × List String) × ServiceState :=
  match items with
  | [] => ((acc, errs), st)
  | item :: rest =>
      let item := overrideItem batchPriority batchTemplateID item
      match SendNotification st item with
      | ((n, some e), st1) =>
          sendBulkLoop batchPriority batchTemplateID rest acc
            (errs ++ ["error sending notification to " ++ item.recipient ++ ": " ++ e]) st1
      | ((n, none), st1) =>
          sendBulkLoop batchPriority batchTemplateID rest (acc ++ [n]) errs st1

/-- SendBulkNotifications (notification.go lines 74-103): iterate the batch,
log collected per-item errors, and return the produced list with a nil error. -/
def SendBulkNotifications (s : ServiceState) (req : BulkNotificationRequest) :
    (List Notification × Option String) × ServiceState :=
  match sendBulkLoop req.priority req.templateID req.notifications [] [] s with
  | ((ns, _errs), s1) => ((ns, none), s1)

/-- SQSClient.SendEventNotification on the events queue: records the attempt,
consumes the send oracle, and appends the message to the queue on success. -/
def SendEventNotification (s : ServiceState) (msg : EventNotificationMessage) :
    Option String × ServiceState :=
  let q := s.eventQueue
  let ok := q.sendResults.headD true
  let q1 := { q with sendResults := q.sendResults.tail,
                     sendAttempts := q.sendAttempts + 1,
                     sent := if ok then q.sent ++ [msg] else q.sent }
  ((if ok then none else some "error sending event notification"),
   { s with eventQueue := q1 })

/-- NotifyEventCreated (notification.go lines 105-144): enqueue the event
message onto the events queue (failure surfaced); when the priority is high or
urgent, additionally build a Notification and attempt an immediate email whose
failure is only logged. -/
def NotifyEventCreated (s : ServiceState) (req : EventNotification) :
    Option String × ServiceState :=
  let msg : EventNotificationMessage :=
    { eventID := req.eventID, eventName := req.eventName,
      eventDate := formatRFC3339 req.eventDate, location := req.location,
      recipient := req.recipient, type := req.type, priority := req.priority,
      templateID := "event_created_template" }
  match SendEventNotification s msg with
  | (some e, s1) => (some ("error sending event notification to queue: " ++ e), s1)
  | (none, s1) =>
      if req.priority = NotificationPriorityHigh ∨ req.priority = NotificationPriorityUrgent then
        let (idv, s2) := uuidNew s1
        let (t1, s3) := timeNow s2
        let (t2, s4) := timeNow s3
        let n : Notification :=
          { id := idv, type := req.type, status := NotificationStatusPending,
            priority := req.priority, recipient := req.recipient,
            subject := "Nuevo Evento: " ++ req.eventName,
            content := "Se ha creado un nuevo evento: " ++ req.eventName ++ " en "
              ++ req.location ++ " el " ++ formatShortDate req.eventDate,
            templateID := "", data := [], sentAt := none, readAt := none,
            createdAt := t1, updatedAt := t2 }
        match sendEmailNotification s4 n with
        | (some _, s5) => (none, s5)
        | (none, s5) => (none, s5)
      else
        (none, s1)

/-- NotifyEventCancelled (notification.go lines 167-204): enqueue the
cancellation message onto the events queue (failure surfaced), then always
build a Notification and attempt an immediate email whose failure is only
logged, regardless of priority. -/
def NotifyEventCancelled (s : ServiceState) (req : EventNotification) :
    Option String × ServiceState :=
  let msg : EventNotificationMessage :=
    { eventID := req.eventID, eventName := req.eventName,
      eventDate := formatRFC3339 req.eventDate, location := req.location,
      recipient := req.recipient, type := req.type, priority := req.priority,
      templateID := "event_cancelled_template" }
  match SendEventNotification s msg with
  | (some e, s1) => (some ("error sending event cancellation to queue: " ++ e), s1)
  | (none, s1) =>
      let (idv, s2) := uuidNew s1
      let (t1, s3) := timeNow s2
      let (t2, s4) := timeNow s3
      let n : Notification :=
        { id := idv, type := req.type, status := NotificationStatusPending,
          priority := req.priority, recipient := req.recipient,
          subject := "Evento Cancelado: " ++ req.eventName,
          content := "El evento \x27" ++ req.eventName ++ "\x27 programado para el "
            ++ formatShortDate req.eventDate ++ " en " ++ req.location
            ++ " ha sido cancelado.",
          templateID := "", data := [], sentAt := none, readAt := none,
          createdAt := t1, updatedAt := t2 }
      match sendEmailNotification s4 n with
      | (some _, s5) => (none, s5)
      | (none, s5) => (none, s5)

/-- SQSClient.ReceiveMessages (sqs.go lines 205-220) on one client state:
counts the receive attempt and, when the transport succeeds, returns up to
maxMessages of the pending messages. -/
def ReceiveMessages {α : Type} (q : SQSClientState α) (maxMessages : Nat) :
    Except String (List SqsMessage) × SQSClientState α :=
  let q1 := { q with receiveAttempts := q.receiveAttempts + 1 }
  if q.receiveOk then (Except.ok (q.pending.take maxMessages), q1)
  else (Except.error "error receiving SQS messages", q1)

/-- SQSClient.DeleteMessage (sqs.go lines 222-232) on one client state:
records the attempted receipt handle, consumes the delete oracle, and on
success removes the message from the queue and records the handle as
deleted. -/
def DeleteMessage {α : Type} (q : SQSClientState α) (receiptHandle : String) :
    Option String × SQSClientState α :=
  let ok := q.deleteResults.headD true
  let q1 := { q with
    deleteResults := q.deleteResults.tail,
    deleteAttempted := q.deleteAttempted ++ [receiptHandle],
    deleted := if ok then q.deleted ++ [receiptHandle] else q.deleted,
    pending := if ok then q.pending.filter (fun m => m.receiptHandle ≠ receiptHandle)
               else q.pending }
  ((if ok then none else some "error deleting SQS message"), q1)

/-- processMessage (notification.go lines 380-396): the switch on the queue
type only logs the message body; every branch returns nil. -/
def processMessage (message : SqsMessage) (queueType : String) : Option String :=
  match queueType with
  | "events" => none
  | "reservations" => none
  | "reminders" => none
  | _ => none

/-- Message loop of ProcessNotificationQueue (notification.go lines 364-375):
for each received message, run the handler; on handler failure log and
continue without deleting; on handler success delete the message from the
queue, logging (and ignoring) any delete error. -/
def processLoop {α : Type} (handlerOk : SqsMessage → Bool)
    (msgs : List SqsMessage) (q : SQSClientState α) : SQSClientState α :=
  match msgs with
  | [] => q
  | m :: rest =>
      if handlerOk m then
        processLoop handlerOk rest (DeleteMessage q m.receiptHandle).2
      else
        processLoop handlerOk rest q

/-- Body of ProcessNotificationQueue once a client is selected: receive up to
10 messages (receive failure surfaced), then run the message loop; the
function itself returns nil after the loop. -/
def processClient {α : Type} (handlerOk : SqsMessage → Bool) (q : SQSClientState α) :
    Option String × SQSClientState α :=
  match ReceiveMessages q 10 with
  | (Except.error e, q1) => (some ("error receiving messages: " ++ e), q1)
  | (Except.ok msgs, q1) => (none, processLoop handlerOk msgs q1)

/-- ProcessNotificationQueue (notification.go lines 341-378): select the client
by queue type (unknown types rejected with an invalid-queue-type error before
any queue operation), then receive one batch and process it with
processMessage as the handler. -/
def ProcessNotificationQueue (s : ServiceState) (queueType : String) :
    Option String × ServiceState :=
  if queueType = "events" then
    match processClient (fun m => (processMessage m queueType).isNone) s.eventQueue with
    | (err, q1) => (err, { s with eventQueue := q1 })
  else if queueType = "reservations" then
    match processClient (fun m => (processMessage m queueType).isNone) s.reservationQueue with
    | (err, q1) => (err, { s with reservationQueue := q1 })
  else if queueType = "reminders" then
    match processClient (fun m => (processMessage m queueType).isNone) s.reminderQueue with
    | (err, q1) => (err, { s with reminderQueue := q1 })
  else
    (some ("invalid queue type: " ++ queueType), s)

/-- Overwrite-or-append update of a Go map modelled as an association list
with unique keys: an existing key keeps its position with the new value, a
new key is appended. -/
def mapSet (m : List (String × String)) (k v : String) : List (String × String) :=
  if m.any (fun p => p.1 = k) then m.map (fun p => if p.1 = k then (k, v) else p)
  else m ++ [(k, v)]

/-- Assignment into a possibly-nil Go map: assigning into a nil map is a
runtime panic. -/
def mapAssign (m : Option (List (String × String))) (k v : String) :
    Except String (List (String × String)) :=
  match m with
  | none => Except.error "assignment to entry in nil map"
  | some l => Except.ok (mapSet l k v)

/-- Rendering of one update value into the attribute-value string, following
the type switch in UpdateNotification; a nil time pointer writes no value. -/
def renderAttrValue (v : GoVal) : Option String :=
  match v with
  | GoVal.str s => some s
  | GoVal.time t => some (formatRFC3339 t)
  | GoVal.timePtr (some t) => some (formatRFC3339 t)
  | GoVal.timePtr none => none
  | GoVal.other s => some s

/-- Loop of DynamoClient.UpdateNotification over the updates map
(dynamo.go lines 167-192): the three accumulators are allocated inside the
loop, on its first iteration (the Go guard tests the nil update-expressions
slice, which is nil exactly when no iteration has yet run). -/
def updateLoop (updates : List (String × GoVal)) (exprs : List String)
    (names vals : Option (List (String × String))) :
    Except String (List String × Option (List (String × String)) × Option (List (String × String))) :=
  match updates with
  | [] => Except.ok (exprs, names, vals)
  | (key, value) :: rest =>
      let (names, vals) :=
        if exprs.isEmpty then (some [], some []) else (names, vals)
      let attrName := "#" ++ key
      let attrValue := ":" ++ key
      let exprs := exprs ++ [attrName ++ " = " ++ attrValue]
      match mapAssign names attrName key with
      | Except.error e => Except.error e
      | Except.ok ns =>
          match renderAttrValue value with
          | some rendered =>
              match mapAssign vals attrValue rendered with
              | Except.error e => Except.error e
              | Except.ok vs => updateLoop rest exprs (some ns) (some vs)
          | none => updateLoop rest exprs (some ns) vals

/-- UpdateItemInput as assembled by UpdateNotification: the key, the SET
expression (kept both as the clause list and the joined string), and the
expression attribute names and values. -/
structure UpdateItemInput where
  key : String
  updateExpressions : List String
  updateExpression : String
  exprAttrNames : List (String × String)
  exprAttrValues : List (String × String)
deriving DecidableEq

/-- DynamoClient.UpdateNotification (dynamo.go lines 161-210): run the loop
over the caller updates, then unconditionally append the updated_at clause
and assign its name and value entries — into maps that are still nil when the
updates map was empty. The UpdateItem call itself is abstracted away; the
assembled input is returned, with a panic surfaced as an error value. -/
def UpdateNotification (notificationID : String) (updates : List (String × GoVal))
    (now : Nat) : Except String UpdateItemInput :=
  match updateLoop updates [] none none with
  | Except.error e => Except.error e
  | Except.ok (exprs, names, vals) =>
      let exprs := exprs ++ ["#updated_at = :updated_at"]
      match mapAssign names "#updated_at" "updated_at" with
      | Except.error e => Except.error e
      | Except.ok ns =>
          match mapAssign vals ":updated_at" (formatRFC3339 now) with
          | Except.error e => Except.error e
          | Except.ok vs =>
              Except.ok
                { key := notificationID,
                  updateExpressions := exprs,
                  updateExpression := "SET " ++ String.intercalate ", " exprs,
                  exprAttrNames := ns,
                  exprAttrValues := vs }

/-! Helper lemmas shared by the claim theorems. -/

/-- The rendered UUID always contains the four hyphens of the 8-4-4-4-12
layout, so it is never the empty string. -/
theorem uuidToString_ne_empty (n : Nat) : uuidToString n ≠ "" := by
  intro h
  have hd : (uuidToString n).data = ("" : String).data := congrArg String.data h
  simp [uuidToString] at hd

/-- Empty SQS client state used by concrete witnesses. -/
def initQueue {α : Type} : SQSClientState α :=
  { sendResults := [], sent := [], sendAttempts := 0, pending := [],
    receiveOk := true, receiveAttempts := 0, deleteResults := [],
    deleteAttempted := [], deleted := [] }

/-- Service state with all oracles empty (every transport call succeeds),
used by concrete witnesses. -/
def initState : ServiceState :=
  { clock := 0, deltas := [], uuidCtr := 0, emailResults := [],
    emailAttempts := 0, emailCalls := [],
    eventQueue := initQueue, reservationQueue := initQueue,
    reminderQueue := initQueue }

/-- Structural description of SendNotification: the error result is nil, the
email oracle advances by one, the returned object carries the request payload
with the allocated id and the two clock reads, and status and sent-at follow
the email outcome. -/
theorem SendNotification_spec (s : ServiceState) (req : CreateNotificationRequest) :
    (SendNotification s req).1.2 = none ∧
    (SendNotification s req).2.emailResults = s.emailResults.tail ∧
    (SendNotification s req).2.emailAttempts = s.emailAttempts + 1 ∧
    (SendNotification s req).2.eventQueue = s.eventQueue ∧
    (SendNotification s req).2.reservationQueue = s.reservationQueue ∧
    (SendNotification s req).2.reminderQueue = s.reminderQueue ∧
    (SendNotification s req).1.1.id = s.uuidCtr ∧
    (SendNotification s req).1.1.createdAt = s.clock ∧
    (SendNotification s req).1.1.updatedAt = s.clock + s.deltas.headD 0 ∧
    (SendNotification s req).1.1.priority
      = (if req.priority = "" then NotificationPriorityNormal else req.priority) ∧
    (SendNotification s req).1.1.templateID = req.templateID ∧
    (if s.emailResults.headD true then
        (SendNotification s req).1.1.status = NotificationStatusSent ∧
        (SendNotification s req).1.1.sentAt.isSome = true
      else
        (SendNotification s req).1.1.status = NotificationStatusFailed ∧
        (SendNotification s req).1.1.sentAt = none) := by
  by_cases hpr : req.priority = "" <;>
  rcases hE : s.emailResults with _ | ⟨b, tl⟩ <;>
  first
    | (cases b <;>
        simp [SendNotification, uuidNew, timeNow, sendEmailNotification, sesSendEmail, hE, hpr])
    | simp [SendNotification, uuidNew, timeNow, sendEmailNotification, sesSendEmail, hE, hpr]

/-- Sample valid request used by concrete witnesses. -/
def sampleReq : CreateNotificationRequest :=
  { type := "welcome", priority := "", recipient := "user@example.com",
    subject := "Hi", content := "Hello", templateID := "", data := [] }

/-- Claim C1: for every valid SendNotification input (recipient, subject and
content non-empty), the returned Notification has a non-empty id, its
created-at instant is at most its updated-at instant, its status is sent or
failed, and the returned error is nil. -/
theorem C1_sendNotification_valid_contract (s : ServiceState)
    (req : CreateNotificationRequest)
    (hr : req.recipient ≠ "") (hs : req.subject ≠ "") (hc : req.content ≠ "") :
    uuidToString (SendNotification s req).1.1.id ≠ "" ∧
    (SendNotification s req).1.1.createdAt ≤ (SendNotification s req).1.1.updatedAt ∧
    ((SendNotification s req).1.1.status = NotificationStatusSent ∨
      (SendNotification s req).1.1.status = NotificationStatusFailed) ∧
    (SendNotification s req).1.2 = none := by
  obtain ⟨herr, -, -, -, -, -, -, hca, hua, -, -, hout⟩ := SendNotification_spec s req
  refine ⟨uuidToString_ne_empty _, ?_, ?_, herr⟩
  · rw [hca, hua]; exact Nat.le_add_right _ _
  · rcases hbool : s.emailResults.headD true with _ | _ <;> rw [hbool] at hout
    · simp only [if_neg Bool.false_ne_true] at hout
      exact Or.inr hout.1
    · simp only [if_pos rfl] at hout
      exact Or.inl hout.1

/-- Witness for C1 at a concrete valid request and the empty-oracle state. -/
theorem C1_witness :
    sampleReq.recipient ≠ "" ∧ sampleReq.subject ≠ "" ∧ sampleReq.content ≠ "" ∧
    (uuidToString (SendNotification initState sampleReq).1.1.id ≠ "" ∧
      (SendNotification initState sampleReq).1.1.createdAt
        ≤ (SendNotification initState sampleReq).1.1.updatedAt ∧
      ((SendNotification initState sampleReq).1.1.status = NotificationStatusSent ∨
        (SendNotification initState sampleReq).1.1.status = NotificationStatusFailed) ∧
      (SendNotification initState sampleReq).1.2 = none) :=
  ⟨by decide, by decide, by decide,
    C1_sendNotification_valid_contract initState sampleReq (by decide) (by decide) (by decide)⟩

/-- Claim C2: SendNotification returns no error; when the email transport
fails it returns a Notification with status failed and a null sent-at, and
when the transport succeeds it returns status sent with a non-null sent-at. -/
theorem C2_sendNotification_transport_outcome (s : ServiceState)
    (req : CreateNotificationRequest) :
    (SendNotification s req).1.2 = none ∧
    (s.emailResults.headD true = false →
      (SendNotification s req).1.1.status = NotificationStatusFailed ∧
      (SendNotification s req).1.1.sentAt = none) ∧
    (s.emailResults.headD true = true →
      (SendNotification s req).1.1.status = NotificationStatusSent ∧
      (SendNotification s req).1.1.sentAt.isSome = true) := by
  obtain ⟨herr, -, -, -, -, -, -, -, -, -, -, hout⟩ := SendNotification_spec s req
  refine ⟨herr, ?_, ?_⟩
  · intro hfail; rw [hfail] at hout
    simpa using hout
  · intro hokk; rw [hokk] at hout
    simpa using hout

/-- Witness for C2: one state whose transport oracle fails the first send, and
one whose oracle lets it succeed. -/
theorem C2_witness :
    ((SendNotification { initState with emailResults := [false] } sampleReq).1.1.status
        = NotificationStatusFailed ∧
      (SendNotification { initState with emailResults := [false] } sampleReq).1.1.sentAt
        = none) ∧
    ((SendNotification { initState with emailResults := [true] } sampleReq).1.1.status
        = NotificationStatusSent ∧
      (SendNotification { initState with emailResults := [true] } sampleReq).1.1.sentAt.isSome
        = true) :=
  ⟨(C2_sendNotification_transport_outcome { initState with emailResults := [false] }
      sampleReq).2.1 (by decide),
    (C2_sendNotification_transport_outcome { initState with emailResults := [true] }
      sampleReq).2.2 (by decide)⟩

/-- A non-empty batch priority is what the sent item carries. -/
theorem overrideItem_priority (bp bt : String) (item : CreateNotificationRequest)
    (h : ¬bp = "") : (overrideItem bp bt item).priority = bp := by
  by_cases hbt : bt = "" <;> simp [overrideItem, h, hbt]

/-- A non-empty batch template is what the sent item carries. -/
theorem overrideItem_templateID (bp bt : String) (item : CreateNotificationRequest)
    (h : ¬bt = "") : (overrideItem bp bt item).templateID = bt := by
  by_cases hbp : bp = "" <;> simp [overrideItem, h, hbp]

/-- The status of one SendNotification result, read off the email oracle. -/
theorem SendNotification_status (s : ServiceState) (req : CreateNotificationRequest) :
    (SendNotification s req).1.1.status
      = (if s.emailResults.headD true then NotificationStatusSent
          else NotificationStatusFailed) := by
  obtain ⟨-, -, -, -, -, -, -, -, -, -, -, hout⟩ := SendNotification_spec s req
  rcases hbool : s.emailResults.headD true with _ | _ <;> rw [hbool] at hout <;> simp at hout ⊢ <;>
    exact hout.1

/-- Invariant of the bulk loop: with a non-empty batch priority, every
collected Notification carries it. -/
theorem sendBulkLoop_priority_inv (bp bt : String) (hbp : ¬bp = "") :
    ∀ (items : List CreateNotificationRequest) (acc : List Notification)
      (errs : List String) (st : ServiceState),
      (∀ n ∈ acc, n.priority = bp) →
      ∀ n ∈ (sendBulkLoop bp bt items acc errs st).1.1, n.priority = bp := by
  intro items
  induction items with
  | nil =>
      intro acc errs st hacc n hn
      simp only [sendBulkLoop] at hn
      exact hacc n hn
  | cons item rest ih =>
      intro acc errs st hacc n hn
      simp only [sendBulkLoop] at hn
      obtain ⟨herr, -, -, -, -, -, -, -, -, hpri, -, -⟩ :=
        SendNotification_spec st (overrideItem bp bt item)
      rcases hsn : SendNotification st (overrideItem bp bt item) with ⟨⟨n0, e0⟩, st1⟩
      rw [hsn] at herr hpri hn
      cases e0 with
      | some e => exact absurd herr (by simp)
      | none =>
          refine ih (acc ++ [n0]) errs st1 ?_ n hn
          intro m hm
          rcases List.mem_append.mp hm with hma | hm0
          · exact hacc m hma
          · have hm0 : m = n0 := by simpa using hm0
            subst hm0
            rw [overrideItem_priority bp bt item hbp] at hpri
            simpa [hbp] using hpri

/-- Invariant of the bulk loop: with a non-empty batch template, every
collected Notification carries it. -/
theorem sendBulkLoop_template_inv (bp bt : String) (hbt : ¬bt = "") :
    ∀ (items : List CreateNotificationRequest) (acc : List Notification)
      (errs : List String) (st : ServiceState),
      (∀ n ∈ acc, n.templateID = bt) →
      ∀ n ∈ (sendBulkLoop bp bt items acc errs st).1.1, n.templateID = bt := by
  intro items
  induction items with
  | nil =>
      intro acc errs st hacc n hn
      simp only [sendBulkLoop] at hn
      exact hacc n hn
  | cons item rest ih =>
      intro acc errs st hacc n hn
      simp only [sendBulkLoop] at hn
      obtain ⟨herr, -, -, -, -, -, -, -, -, -, htpl, -⟩ :=
        SendNotification_spec st (overrideItem bp bt item)
      rcases hsn : SendNotification st (overrideItem bp bt item) with ⟨⟨n0, e0⟩, st1⟩
      rw [hsn] at herr htpl hn
      cases e0 with
      | some e => exact absurd herr (by simp)
      | none =>
          refine ih (acc ++ [n0]) errs st1 ?_ n hn
          intro m hm
          rcases List.mem_append.mp hm with hma | hm0
          · exact hacc m hma
          · have hm0 : m = n0 := by simpa using hm0
            subst hm0
            rw [overrideItem_templateID bp bt item hbt] at htpl
            exact htpl

/-- Claim C3: a non-empty batch-level priority overrides every item priority
in the Notifications produced by SendBulkNotifications, and a non-empty
batch-level template does the same for the template reference. -/
theorem C3_sendBulk_batch_overrides (s : ServiceState) (req : BulkNotificationRequest) :
    (req.priority ≠ "" →
      ∀ n ∈ (SendBulkNotifications s req).1.1, n.priority = req.priority) ∧
    (req.templateID ≠ "" →
      ∀ n ∈ (SendBulkNotifications s req).1.1, n.templateID = req.templateID) := by
  constructor
  · intro hbp n hn
    simp only [SendBulkNotifications] at hn
    rcases hb : sendBulkLoop req.priority req.templateID req.notifications [] [] s
      with ⟨⟨ns, errs⟩, s1⟩
    rw [hb] at hn
    have := sendBulkLoop_priority_inv req.priority req.templateID hbp
      req.notifications [] [] s (by simp) n (by rw [hb]; simpa using hn)
    exact this
  · intro hbt n hn
    simp only [SendBulkNotifications] at hn
    rcases hb : sendBulkLoop req.priority req.templateID req.notifications [] [] s
      with ⟨⟨ns, errs⟩, s1⟩
    rw [hb] at hn
    have := sendBulkLoop_template_inv req.priority req.templateID hbt
      req.notifications [] [] s (by simp) n (by rw [hb]; simpa using hn)
    exact this

/-- Batch request used by the C3 witness: urgent at the batch level over an
item individually marked low. -/
def sampleBulkReq : BulkNotificationRequest :=
  { notifications := [{ sampleReq with priority := NotificationPriorityLow }],
    templateID := "tpl-1", priority := NotificationPriorityUrgent }

/-- Witness for C3: the batch of one low-priority item sent under an urgent
batch priority and a batch template comes back urgent with that template. -/
theorem C3_witness :
    sampleBulkReq.priority ≠ "" ∧ sampleBulkReq.templateID ≠ "" ∧
    (∀ n ∈ (SendBulkNotifications initState sampleBulkReq).1.1,
      n.priority = sampleBulkReq.priority) ∧
    (∀ n ∈ (SendBulkNotifications initState sampleBulkReq).1.1,
      n.templateID = sampleBulkReq.templateID) :=
  ⟨by decide, by decide,
    (C3_sendBulk_batch_overrides initState sampleBulkReq).1 (by decide),
    (C3_sendBulk_batch_overrides initState sampleBulkReq).2 (by decide)⟩

/-- Status list expected from the transport oracle: the k-th of n sends comes
back sent when the k-th oracle entry (defaulting to success) is true, and
failed otherwise. -/
def statusesFromOracle (oracle : List Bool) (n : Nat) : List String :=
  match n with
  | 0 => []
  | Nat.succ k =>
      (if oracle.headD true then NotificationStatusSent else NotificationStatusFailed)
        :: statusesFromOracle oracle.tail k

/-- statusesFromOracle produces one status per requested send. -/
theorem statusesFromOracle_length (oracle : List Bool) (n : Nat) :
    (statusesFromOracle oracle n).length = n := by
  induction n generalizing oracle with
  | zero => simp [statusesFromOracle]
  | succ k ih => simp [statusesFromOracle, ih]

/-- The bulk loop appends exactly the oracle-derived statuses to the
accumulator. -/
theorem sendBulkLoop_statuses (bp bt : String) :
    ∀ (items : List CreateNotificationRequest) (acc : List Notification)
      (errs : List String) (st : ServiceState),
      (sendBulkLoop bp bt items acc errs st).1.1.map Notification.status
        = acc.map Notification.status ++ statusesFromOracle st.emailResults items.length := by
  intro items
  induction items with
  | nil =>
      intro acc errs st
      simp [sendBulkLoop, statusesFromOracle]
  | cons item rest ih =>
      intro acc errs st
      simp only [sendBulkLoop]
      obtain ⟨herr, hora, -, -, -, -, -, -, -, -, -, -⟩ :=
        SendNotification_spec st (overrideItem bp bt item)
      have hstat := SendNotification_status st (overrideItem bp bt item)
      rcases hsn : SendNotification st (overrideItem bp bt item) with ⟨⟨n0, e0⟩, st1⟩
      rw [hsn] at herr hora hstat
      cases e0 with
      | some e => exact absurd herr (by simp)
      | none =>
          have hora2 : st1.emailResults = st.emailResults.tail := by simpa using hora
          have hstat2 : n0.status
              = (if st.emailResults.headD true then NotificationStatusSent
                  else NotificationStatusFailed) := by simpa using hstat
          simp only []
          rw [ih (acc ++ [n0]) errs st1, hora2]
          simp [statusesFromOracle, List.map_append, hstat2]

/-- Claim C4: SendBulkNotifications over N items returns exactly N
Notifications and a nil error even when the transport fails on some items;
each item whose send failed appears with status failed and each item whose
send succeeded appears with status sent, in batch order. -/
theorem C4_sendBulk_partial_failure (s : ServiceState) (req : BulkNotificationRequest) :
    (SendBulkNotifications s req).1.1.length = req.notifications.length ∧
    (SendBulkNotifications s req).1.2 = none ∧
    (SendBulkNotifications s req).1.1.map Notification.status
      = statusesFromOracle s.emailResults req.notifications.length := by
  have hmap : (SendBulkNotifications s req).1.1.map Notification.status
      = statusesFromOracle s.emailResults req.notifications.length := by
    simp only [SendBulkNotifications]
    rcases hb : sendBulkLoop req.priority req.templateID req.notifications [] [] s
      with ⟨⟨ns, errs⟩, s1⟩
    have := sendBulkLoop_statuses req.priority req.templateID req.notifications [] [] s
    rw [hb] at this
    simpa using this
  refine ⟨?_, ?_, hmap⟩
  · have := congrArg List.length hmap
    simpa [statusesFromOracle_length] using this
  · simp [SendBulkNotifications]

/-- Claim C5: NotifyEventCreated makes exactly one enqueue attempt on the
events queue and touches no other queue; when the enqueue succeeds it adds
exactly one message to the events queue, returns no error regardless of the
email outcome, and attempts exactly one email send if and only if the
priority is high or urgent (zero sends for low or normal). -/
theorem C5_notifyEventCreated_policy (s : ServiceState) (req : EventNotification) :
    (NotifyEventCreated s req).2.eventQueue.sendAttempts = s.eventQueue.sendAttempts + 1 ∧
    (NotifyEventCreated s req).2.reservationQueue = s.reservationQueue ∧
    (NotifyEventCreated s req).2.reminderQueue = s.reminderQueue ∧
    (s.eventQueue.sendResults.headD true = true →
      (NotifyEventCreated s req).2.eventQueue.sent.length = s.eventQueue.sent.length + 1 ∧
      (NotifyEventCreated s req).1 = none ∧
      (NotifyEventCreated s req).2.emailAttempts
        = s.emailAttempts
          + (if req.priority = NotificationPriorityHigh
                ∨ req.priority = NotificationPriorityUrgent then 1 else 0)) := by
  by_cases hpri : req.priority = NotificationPriorityHigh
      ∨ req.priority = NotificationPriorityUrgent <;>
  rcases hq : s.eventQueue.sendResults with _ | ⟨b, tl⟩ <;>
  first
    | (cases b <;>
        rcases hem : s.emailResults with _ | ⟨c, el⟩ <;>
        first
          | (cases c <;>
              simp [NotifyEventCreated, SendEventNotification, uuidNew, timeNow,
                sendEmailNotification, sesSendEmail, hq, hem, hpri])
          | simp [NotifyEventCreated, SendEventNotification, uuidNew, timeNow,
              sendEmailNotification, sesSendEmail, hq, hem, hpri])
    | (rcases hem : s.emailResults with _ | ⟨c, el⟩ <;>
        first
          | (cases c <;>
              simp [NotifyEventCreated, SendEventNotification, uuidNew, timeNow,
                sendEmailNotification, sesSendEmail, hq, hem, hpri])
          | simp [NotifyEventCreated, SendEventNotification, uuidNew, timeNow,
              sendEmailNotification, sesSendEmail, hq, hem, hpri])

/-- Urgent event request used by the C5 witness. -/
def sampleEvent : EventNotification :=
  { eventID := "e1", eventName := "Concert", eventDate := 5, location := "Hall",
    recipient := "user@example.com", type := "event_created",
    priority := NotificationPriorityUrgent }

/-- Witness for C5 at an urgent request over the always-succeeding state. -/
theorem C5_witness :
    initState.eventQueue.sendResults.headD true = true ∧
    ((NotifyEventCreated initState sampleEvent).2.eventQueue.sent.length
        = initState.eventQueue.sent.length + 1 ∧
      (NotifyEventCreated initState sampleEvent).1 = none ∧
      (NotifyEventCreated initState sampleEvent).2.emailAttempts
        = initState.emailAttempts
          + (if sampleEvent.priority = NotificationPriorityHigh
                ∨ sampleEvent.priority = NotificationPriorityUrgent then 1 else 0)) :=
  ⟨by decide, (C5_notifyEventCreated_policy initState sampleEvent).2.2.2 (by decide)⟩

/-- Claim C6: NotifyEventCancelled makes exactly one enqueue attempt on the
events queue and touches no other queue; when the enqueue succeeds it adds
one message, attempts exactly one email send regardless of priority, and
returns no error regardless of the email outcome; when the enqueue fails it
returns an error and attempts no email send. -/
theorem C6_notifyEventCancelled_policy (s : ServiceState) (req : EventNotification) :
    (NotifyEventCancelled s req).2.eventQueue.sendAttempts = s.eventQueue.sendAttempts + 1 ∧
    (NotifyEventCancelled s req).2.reservationQueue = s.reservationQueue ∧
    (NotifyEventCancelled s req).2.reminderQueue = s.reminderQueue ∧
    (s.eventQueue.sendResults.headD true = true →
      (NotifyEventCancelled s req).2.eventQueue.sent.length = s.eventQueue.sent.length + 1 ∧
      (NotifyEventCancelled s req).2.emailAttempts = s.emailAttempts + 1 ∧
      (NotifyEventCancelled s req).1 = none) ∧
    (s.eventQueue.sendResults.headD true = false →
      ((NotifyEventCancelled s req).1).isSome = true ∧
      (NotifyEventCancelled s req).2.emailAttempts = s.emailAttempts) := by
  rcases hq : s.eventQueue.sendResults with _ | ⟨b, tl⟩ <;>
  first
    | (cases b <;>
        rcases hem : s.emailResults with _ | ⟨c, el⟩ <;>
        first
          | (cases c <;>
              simp [NotifyEventCancelled, SendEventNotification, uuidNew, timeNow,
                sendEmailNotification, sesSendEmail, hq, hem])
          | simp [NotifyEventCancelled, SendEventNotification, uuidNew, timeNow,
              sendEmailNotification, sesSendEmail, hq, hem])
    | (rcases hem : s.emailResults with _ | ⟨c, el⟩ <;>
        first
          | (cases c <;>
              simp [NotifyEventCancelled, SendEventNotification, uuidNew, timeNow,
                sendEmailNotification, sesSendEmail, hq, hem])
          | simp [NotifyEventCancelled, SendEventNotification, uuidNew, timeNow,
              sendEmailNotification, sesSendEmail, hq, hem])

/-- State whose events queue fails its first enqueue, for the C6 witness. -/
def failEnqueueState : ServiceState :=
  { initState with eventQueue := { initQueue with sendResults := [false] } }

/-- Low-priority cancellation request used by the C6 witness: the email is
attempted even at low priority. -/
def sampleCancelEvent : EventNotification :=
  { sampleEvent with type := "event_cancelled", priority := NotificationPriorityLow }

/-- Witness for C6: the enqueue-success branch at low priority still attempts
one email, and the enqueue-failure branch surfaces an error with no email
attempt. -/
theorem C6_witness :
    ((NotifyEventCancelled initState sampleCancelEvent).2.eventQueue.sent.length
        = initState.eventQueue.sent.length + 1 ∧
      (NotifyEventCancelled initState sampleCancelEvent).2.emailAttempts
        = initState.emailAttempts + 1 ∧
      (NotifyEventCancelled initState sampleCancelEvent).1 = none) ∧
    (((NotifyEventCancelled failEnqueueState sampleCancelEvent).1).isSome = true ∧
      (NotifyEventCancelled failEnqueueState sampleCancelEvent).2.emailAttempts
        = failEnqueueState.emailAttempts) :=
  ⟨(C6_notifyEventCancelled_policy initState sampleCancelEvent).2.2.2.1 (by decide),
    (C6_notifyEventCancelled_policy failEnqueueState sampleCancelEvent).2.2.2.2 (by decide)⟩

/-- Claim C7: ProcessNotificationQueue on a queue type outside events,
reservations and reminders returns an invalid-argument error and leaves the
whole service state unchanged, so no receive or delete is performed. -/
theorem C7_processQueue_invalid_type (s : ServiceState) (queueType : String)
    (h1 : queueType ≠ "events") (h2 : queueType ≠ "reservations")
    (h3 : queueType ≠ "reminders") :
    ((ProcessNotificationQueue s queueType).1).isSome = true ∧
    (ProcessNotificationQueue s queueType).2 = s := by
  simp [ProcessNotificationQueue, h1, h2, h3]

/-- Witness for C7 at the queue type "invalid". -/
theorem C7_witness :
    ("invalid" : String) ≠ "events" ∧ ("invalid" : String) ≠ "reservations" ∧
    ("invalid" : String) ≠ "reminders" ∧
    ((ProcessNotificationQueue initState "invalid").1).isSome = true ∧
    (ProcessNotificationQueue initState "invalid").2 = initState :=
  ⟨by decide, by decide, by decide,
    (C7_processQueue_invalid_type initState "invalid" (by decide) (by decide) (by decide)).1,
    (C7_processQueue_invalid_type initState "invalid" (by decide) (by decide) (by decide)).2⟩

/-- A list whose members are all true has head (defaulting to true) true. -/
theorem headD_true_of_all (l : List Bool) (h : ∀ b ∈ l, b = true) :
    l.headD true = true := by
  cases l with
  | nil => rfl
  | cons b tl => simpa using h b (by simp)

/-- The message loop never touches the receive counter. -/
theorem processLoop_receiveAttempts {α : Type} (handlerOk : SqsMessage → Bool) :
    ∀ (msgs : List SqsMessage) (q : SQSClientState α),
      (processLoop handlerOk msgs q).receiveAttempts = q.receiveAttempts := by
  intro msgs
  induction msgs with
  | nil => intro q; simp [processLoop]
  | cons m rest ih =>
      intro q
      by_cases hm : handlerOk m <;> simp [processLoop, hm, ih, DeleteMessage]

/-- When every delete succeeds, the message loop attempts and completes a
deletion for exactly the handler-approved messages, in order. -/
theorem processLoop_spec {α : Type} (handlerOk : SqsMessage → Bool) :
    ∀ (msgs : List SqsMessage) (q : SQSClientState α),
      (∀ b ∈ q.deleteResults, b = true) →
      (processLoop handlerOk msgs q).deleteAttempted
        = q.deleteAttempted ++ (msgs.filter handlerOk).map SqsMessage.receiptHandle ∧
      (processLoop handlerOk msgs q).deleted
        = q.deleted ++ (msgs.filter handlerOk).map SqsMessage.receiptHandle := by
  intro msgs
  induction msgs with
  | nil => intro q h; simp [processLoop]
  | cons m rest ih =>
      intro q h
      by_cases hm : handlerOk m
      · have hok : q.deleteResults.head?.getD true = true := by
          simpa [List.headD_eq_head?_getD] using headD_true_of_all _ h
        have h2 : ∀ b ∈ ((DeleteMessage q m.receiptHandle).2).deleteResults, b = true := by
          intro b hb
          simp only [DeleteMessage] at hb
          exact h b (List.mem_of_mem_tail hb)
        obtain ⟨ha, hd⟩ := ih (DeleteMessage q m.receiptHandle).2 h2
        simp only [processLoop, if_pos hm]
        rw [ha, hd]
        simp [DeleteMessage, hok, List.filter_cons, hm, List.append_assoc]
      · obtain ⟨ha, hd⟩ := ih q h
        simp [processLoop, hm, ha, hd]

/-- With a handler that always succeeds, the loop attempts a deletion for
every received message, whatever the delete oracle says. -/
theorem processLoop_attempts_all {α : Type} (handlerOk : SqsMessage → Bool)
    (hall : ∀ m, handlerOk m = true) :
    ∀ (msgs : List SqsMessage) (q : SQSClientState α),
      (processLoop handlerOk msgs q).deleteAttempted
        = q.deleteAttempted ++ msgs.map SqsMessage.receiptHandle := by
  intro msgs
  induction msgs with
  | nil => intro q; simp [processLoop]
  | cons m rest ih =>
      intro q
      simp [processLoop, hall m, ih, DeleteMessage, List.append_assoc]

/-- processClient always makes exactly one receive attempt. -/
theorem processClient_receiveAttempts {α : Type} (handlerOk : SqsMessage → Bool)
    (q : SQSClientState α) :
    (processClient handlerOk q).2.receiveAttempts = q.receiveAttempts + 1 := by
  by_cases hr : q.receiveOk <;>
    simp [processClient, ReceiveMessages, hr, processLoop_receiveAttempts]

/-- Claim C8: a call on a valid queue type performs exactly one receive of a
batch of at most 10 messages, and — when deletes succeed — attempts and
completes a deletion exactly for the messages whose handler run succeeds,
leaving handler-failed messages un-deleted while the rest of the batch is
still processed. -/
theorem C8_processQueue_ack_policy {α : Type} (handlerOk : SqsMessage → Bool)
    (q : SQSClientState α) (s : ServiceState)
    (hrecv : q.receiveOk = true) (hdel : ∀ b ∈ q.deleteResults, b = true) :
    (processClient handlerOk q).1 = none ∧
    (processClient handlerOk q).2.receiveAttempts = q.receiveAttempts + 1 ∧
    (q.pending.take 10).length ≤ 10 ∧
    (processClient handlerOk q).2.deleteAttempted
      = q.deleteAttempted ++ ((q.pending.take 10).filter handlerOk).map SqsMessage.receiptHandle ∧
    (processClient handlerOk q).2.deleted
      = q.deleted ++ ((q.pending.take 10).filter handlerOk).map SqsMessage.receiptHandle ∧
    (ProcessNotificationQueue s "events").2.eventQueue.receiveAttempts
      = s.eventQueue.receiveAttempts + 1 ∧
    (ProcessNotificationQueue s "reservations").2.reservationQueue.receiveAttempts
      = s.reservationQueue.receiveAttempts + 1 ∧
    (ProcessNotificationQueue s "reminders").2.reminderQueue.receiveAttempts
      = s.reminderQueue.receiveAttempts + 1 := by
  have hq1 : ∀ b ∈ ({ q with receiveAttempts := q.receiveAttempts + 1, receiveOk := true }
      : SQSClientState α).deleteResults, b = true := hdel
  obtain ⟨ha, hd⟩ := processLoop_spec handlerOk (q.pending.take 10)
    { q with receiveAttempts := q.receiveAttempts + 1, receiveOk := true } hq1
  refine ⟨?_, ?_, List.length_take_le 10 q.pending, ?_, ?_, ?_, ?_, ?_⟩
  · simp [processClient, ReceiveMessages, hrecv]
  · exact processClient_receiveAttempts handlerOk q
  · simp [processClient, ReceiveMessages, hrecv]
    simpa using ha
  · simp [processClient, ReceiveMessages, hrecv]
    simpa using hd
  · simp [ProcessNotificationQueue]
    exact processClient_receiveAttempts _ s.eventQueue
  · simp [ProcessNotificationQueue]
    exact processClient_receiveAttempts _ s.reservationQueue
  · simp [ProcessNotificationQueue]
    exact processClient_receiveAttempts _ s.reminderQueue

/-- Three received messages used by the C8 and C9 witnesses. -/
def wmsg1 : SqsMessage := { messageId := "m1", body := "b1", receiptHandle := "r1" }
/-- Second witness message, the one whose handler run is made to fail. -/
def wmsg2 : SqsMessage := { messageId := "m2", body := "b2", receiptHandle := "r2" }
/-- Third witness message. -/
def wmsg3 : SqsMessage := { messageId := "m3", body := "b3", receiptHandle := "r3" }

/-- Handler outcome used by the C8 witness: fails exactly on message m2. -/
def sampleHandler : SqsMessage → Bool := fun m => !(m.messageId == "m2")

/-- Queue state holding the three witness messages. -/
def sampleQueue : SQSClientState EventNotificationMessage :=
  { initQueue with pending := [wmsg1, wmsg2, wmsg3] }

/-- Witness for C8: of three received messages with the handler failing on
the second, exactly the first and third are deleted. -/
theorem C8_witness :
    sampleQueue.receiveOk = true ∧ (∀ b ∈ sampleQueue.deleteResults, b = true) ∧
    (processClient sampleHandler sampleQueue).1 = none ∧
    (processClient sampleHandler sampleQueue).2.deleted
      = sampleQueue.deleted
        ++ ((sampleQueue.pending.take 10).filter sampleHandler).map SqsMessage.receiptHandle :=
  ⟨by decide, by decide,
    (C8_processQueue_ack_policy sampleHandler sampleQueue initState (by decide)
      (by decide)).1,
    (C8_processQueue_ack_policy sampleHandler sampleQueue initState (by decide)
      (by decide)).2.2.2.2.1⟩

/-- With an always-succeeding handler and a working receive, processClient
attempts a deletion for every message of the received batch. -/
theorem processClient_attempts_allOk {α : Type} (handlerOk : SqsMessage → Bool)
    (hall : ∀ m, handlerOk m = true) (q : SQSClientState α) (hr : q.receiveOk = true) :
    (processClient handlerOk q).2.deleteAttempted
      = q.deleteAttempted ++ (q.pending.take 10).map SqsMessage.receiptHandle := by
  have := processLoop_attempts_all handlerOk hall (q.pending.take 10)
    { q with receiveAttempts := q.receiveAttempts + 1, receiveOk := true }
  simp [processClient, ReceiveMessages, hr]
  simpa using this

/-- Claim C9: processMessage returns success for every message and queue type,
so the handler-failure branch of ProcessNotificationQueue is unreachable and
a deletion is attempted for every received message on each valid queue
type. -/
theorem C9_processMessage_never_fails :
    (∀ (m : SqsMessage) (qt : String), processMessage m qt = none) ∧
    (∀ s : ServiceState, s.eventQueue.receiveOk = true →
      (ProcessNotificationQueue s "events").2.eventQueue.deleteAttempted
        = s.eventQueue.deleteAttempted
          ++ (s.eventQueue.pending.take 10).map SqsMessage.receiptHandle) ∧
    (∀ s : ServiceState, s.reservationQueue.receiveOk = true →
      (ProcessNotificationQueue s "reservations").2.reservationQueue.deleteAttempted
        = s.reservationQueue.deleteAttempted
          ++ (s.reservationQueue.pending.take 10).map SqsMessage.receiptHandle) ∧
    (∀ s : ServiceState, s.reminderQueue.receiveOk = true →
      (ProcessNotificationQueue s "reminders").2.reminderQueue.deleteAttempted
        = s.reminderQueue.deleteAttempted
          ++ (s.reminderQueue.pending.take 10).map SqsMessage.receiptHandle) := by
  have hpm : ∀ (m : SqsMessage) (qt : String), processMessage m qt = none := by
    intro m qt
    unfold processMessage
    split <;> rfl
  refine ⟨hpm, ?_, ?_, ?_⟩
  · intro s hr
    have h := processClient_attempts_allOk (fun m => (processMessage m "events").isNone)
      (fun m => by simp [hpm m]) s.eventQueue hr
    simpa [ProcessNotificationQueue] using h
  · intro s hr
    have h := processClient_attempts_allOk (fun m => (processMessage m "reservations").isNone)
      (fun m => by simp [hpm m]) s.reservationQueue hr
    simpa [ProcessNotificationQueue] using h
  · intro s hr
    have h := processClient_attempts_allOk (fun m => (processMessage m "reminders").isNone)
      (fun m => by simp [hpm m]) s.reminderQueue hr
    simpa [ProcessNotificationQueue] using h

/-- Service state whose events queue holds the witness messages. -/
def sampleQState : ServiceState := { initState with eventQueue := sampleQueue }

/-- Witness for C9: on a queue of three pending messages, a delete is
attempted for every received message. -/
theorem C9_witness :
    processMessage wmsg1 "events" = none ∧
    sampleQState.eventQueue.receiveOk = true ∧
    (ProcessNotificationQueue sampleQState "events").2.eventQueue.deleteAttempted
      = sampleQState.eventQueue.deleteAttempted
        ++ (sampleQState.eventQueue.pending.take 10).map SqsMessage.receiptHandle :=
  ⟨C9_processMessage_never_fails.1 wmsg1 "events", by decide,
    C9_processMessage_never_fails.2.1 sampleQState (by decide)⟩

/-- A freshly written key-value pair is in the map. -/
theorem mapSet_mem_self (m : List (String × String)) (k v : String) :
    (k, v) ∈ mapSet m k v := by
  by_cases h : m.any (fun p => p.1 = k)
  · simp only [mapSet, if_pos h]
    rcases List.any_eq_true.mp h with ⟨p, hp, hpk⟩
    have hpk2 : p.1 = k := by simpa using hpk
    exact List.mem_map.mpr ⟨p, hp, by simp [hpk2]⟩
  · simp only [mapSet, if_neg h]
    simp

/-- Writing one key leaves every pair under a different key in the map. -/
theorem mapSet_mem_of_ne (m : List (String × String)) (k v k0 v0 : String)
    (h : (k0, v0) ∈ m) (hk : k0 ≠ k) : (k0, v0) ∈ mapSet m k v := by
  by_cases hany : m.any (fun p => p.1 = k)
  · simp only [mapSet, if_pos hany]
    refine List.mem_map.mpr ⟨(k0, v0), h, ?_⟩
    simp [hk]
  · simp only [mapSet, if_neg hany]
    exact List.mem_append_left _ h

/-- Sharing the hash-mark prefix preserves equality of the bare keys. -/
theorem hash_prefix_inj (a b : String) (h : "#" ++ a = "#" ++ b) : a = b := by
  have hd := congrArg String.data h
  simp only [String.data_append] at hd
  exact String.ext (by simpa using hd)

/-- A name-map pair for key k survives the write of the name-map pair for any
key k1 (same pair when k = k1, untouched otherwise). -/
theorem hashPair_mem_mapSet (m : List (String × String)) (k k1 : String)
    (h : ("#" ++ k, k) ∈ m) : ("#" ++ k, k) ∈ mapSet m ("#" ++ k1) k1 := by
  by_cases hkk : k = k1
  · subst hkk
    exact mapSet_mem_self m ("#" ++ k) k
  · exact mapSet_mem_of_ne m ("#" ++ k1) k1 ("#" ++ k) k h
      (fun hc => hkk (hash_prefix_inj k k1 hc))

/-- A name-map pair survives the final updated_at write. -/
theorem hashPair_mem_mapSet_updatedAt (m : List (String × String)) (k : String)
    (h : ("#" ++ k, k) ∈ m) :
    ("#" ++ k, k) ∈ mapSet m "#updated_at" "updated_at" := by
  have he : ("#updated_at" : String) = "#" ++ "updated_at" := rfl
  rw [he]
  exact hashPair_mem_mapSet m k "updated_at" h

/-- Invariant of the update loop once the maps are allocated: it returns
successfully, only appends clauses, preserves existing name entries, and adds
a name entry for every remaining update key. -/
theorem updateLoop_some_spec :
    ∀ (us : List (String × GoVal)) (exprs : List String)
      (ns vs : List (String × String)), exprs ≠ [] →
      ∃ exprs2 ns2 vs2,
        updateLoop us exprs (some ns) (some vs)
          = Except.ok (exprs2, some ns2, some vs2) ∧
        (∃ tailE, exprs2 = exprs ++ tailE) ∧
        (∀ k, ("#" ++ k, k) ∈ ns → ("#" ++ k, k) ∈ ns2) ∧
        (∀ ku ∈ us, ("#" ++ ku.1, ku.1) ∈ ns2) := by
  intro us
  induction us with
  | nil =>
      intro exprs ns vs hne
      exact ⟨exprs, ns, vs, by simp [updateLoop], ⟨[], by simp⟩, fun k hk => hk, by simp⟩
  | cons u rest ih =>
      intro exprs ns vs hne
      rcases u with ⟨key, value⟩
      have hkeep : exprs.isEmpty = false := by
        cases exprs with
        | nil => exact absurd rfl hne
        | cons a l => rfl
      cases hrv : renderAttrValue value with
      | some rendered =>
          obtain ⟨e2, n2, v2, heq, ⟨tE, htE⟩, hpres, hnew⟩ :=
            ih (exprs ++ ["#" ++ key ++ " = " ++ (":" ++ key)])
              (mapSet ns ("#" ++ key) key) (mapSet vs (":" ++ key) rendered) (by simp)
          refine ⟨e2, n2, v2, ?_, ⟨["#" ++ key ++ " = " ++ (":" ++ key)] ++ tE, ?_⟩, ?_, ?_⟩
          · simp [updateLoop, hkeep, mapAssign, hrv, heq]
          · rw [htE, List.append_assoc]
          · intro k hk
            exact hpres k (hashPair_mem_mapSet ns k key hk)
          · intro ku hku
            rcases List.mem_cons.mp hku with hk0 | hkr
            · subst hk0
              exact hpres key (mapSet_mem_self ns ("#" ++ key) key)
            · exact hnew ku hkr
      | none =>
          obtain ⟨e2, n2, v2, heq, ⟨tE, htE⟩, hpres, hnew⟩ :=
            ih (exprs ++ ["#" ++ key ++ " = " ++ (":" ++ key)])
              (mapSet ns ("#" ++ key) key) vs (by simp)
          refine ⟨e2, n2, v2, ?_, ⟨["#" ++ key ++ " = " ++ (":" ++ key)] ++ tE, ?_⟩, ?_, ?_⟩
          · simp [updateLoop, hkeep, mapAssign, hrv, heq]
          · rw [htE, List.append_assoc]
          · intro k hk
            exact hpres k (hashPair_mem_mapSet ns k key hk)
          · intro ku hku
            rcases List.mem_cons.mp hku with hk0 | hkr
            · subst hk0
              exact hpres key (mapSet_mem_self ns ("#" ++ key) key)
            · exact hnew ku hkr

/-- Claim C10: UpdateNotification with an empty updates map panics — the
unconditional updated_at entry is written into expression-attribute maps that
are only allocated inside the loop over the updates, so they are still nil —
while for every non-empty updates map the call succeeds and the assembled
update always rewrites updated_at in addition to every caller-supplied
field. -/
theorem C10_updateNotification_nil_map (nid : String) (updates : List (String × GoVal))
    (now : Nat) (hne : updates ≠ []) :
    UpdateNotification nid [] now = Except.error "assignment to entry in nil map" ∧
    ∃ out, UpdateNotification nid updates now = Except.ok out ∧
      "#updated_at = :updated_at" ∈ out.updateExpressions ∧
      ("#updated_at", "updated_at") ∈ out.exprAttrNames ∧
      (":updated_at", formatRFC3339 now) ∈ out.exprAttrValues ∧
      ∀ ku ∈ updates, ("#" ++ ku.1, ku.1) ∈ out.exprAttrNames := by
  constructor
  · simp [UpdateNotification, updateLoop, mapAssign]
  · cases updates with
    | nil => exact absurd rfl hne
    | cons u rest =>
        rcases u with ⟨key, value⟩
        cases hrv : renderAttrValue value with
        | some rendered =>
            obtain ⟨e2, n2, v2, heq, ⟨tE, htE⟩, hpres, hnew⟩ :=
              updateLoop_some_spec rest ["#" ++ key ++ " = " ++ (":" ++ key)]
                (mapSet [] ("#" ++ key) key) (mapSet [] (":" ++ key) rendered) (by simp)
            refine ⟨{ key := nid,
                      updateExpressions := e2 ++ ["#updated_at = :updated_at"],
                      updateExpression := "SET " ++ String.intercalate ", "
                        (e2 ++ ["#updated_at = :updated_at"]),
                      exprAttrNames := mapSet n2 "#updated_at" "updated_at",
                      exprAttrValues := mapSet v2 ":updated_at" (formatRFC3339 now) },
                    ?_, ?_, ?_, ?_, ?_⟩
            · simp [UpdateNotification, updateLoop, mapAssign, hrv, heq]
            · exact List.mem_append_right _ (by simp)
            · exact mapSet_mem_self n2 "#updated_at" "updated_at"
            · exact mapSet_mem_self v2 ":updated_at" (formatRFC3339 now)
            · intro ku hku
              rcases List.mem_cons.mp hku with hk0 | hkr
              · subst hk0
                exact hashPair_mem_mapSet_updatedAt n2 key
                  (hpres key (mapSet_mem_self [] ("#" ++ key) key))
              · exact hashPair_mem_mapSet_updatedAt n2 ku.1 (hnew ku hkr)
        | none =>
            obtain ⟨e2, n2, v2, heq, ⟨tE, htE⟩, hpres, hnew⟩ :=
              updateLoop_some_spec rest ["#" ++ key ++ " = " ++ (":" ++ key)]
                (mapSet [] ("#" ++ key) key) [] (by simp)
            refine ⟨{ key := nid,
                      updateExpressions := e2 ++ ["#updated_at = :updated_at"],
                      updateExpression := "SET " ++ String.intercalate ", "
                        (e2 ++ ["#updated_at = :updated_at"]),
                      exprAttrNames := mapSet n2 "#updated_at" "updated_at",
                      exprAttrValues := mapSet v2 ":updated_at" (formatRFC3339 now) },
                    ?_, ?_, ?_, ?_, ?_⟩
            · simp [UpdateNotification, updateLoop, mapAssign, hrv, heq]
            · exact List.mem_append_right _ (by simp)
            · exact mapSet_mem_self n2 "#updated_at" "updated_at"
            · exact mapSet_mem_self v2 ":updated_at" (formatRFC3339 now)
            · intro ku hku
              rcases List.mem_cons.mp hku with hk0 | hkr
              · subst hk0
                exact hashPair_mem_mapSet_updatedAt n2 key
                  (hpres key (mapSet_mem_self [] ("#" ++ key) key))
              · exact hashPair_mem_mapSet_updatedAt n2 ku.1 (hnew ku hkr)

/-- Witness for C10 at a one-entry updates map. -/
theorem C10_witness :
    ([(("status" : String), GoVal.str "sent")] ≠ ([] : List (String × GoVal))) ∧
    (UpdateNotification "n-1" [] 7 = Except.error "assignment to entry in nil map" ∧
      ∃ out, UpdateNotification "n-1" [("status", GoVal.str "sent")] 7 = Except.ok out ∧
        "#updated_at = :updated_at" ∈ out.updateExpressions ∧
        ("#updated_at", "updated_at") ∈ out.exprAttrNames ∧
        (":updated_at", formatRFC3339 7) ∈ out.exprAttrValues ∧
        ∀ ku ∈ [(("status" : String), GoVal.str "sent")],
          ("#" ++ ku.1, ku.1) ∈ out.exprAttrNames) :=
  ⟨by decide,
    C10_updateNotification_nil_map "n-1" [("status", GoVal.str "sent")] 7 (by decide)⟩

end TicketNotif
